import Mathlib

set_option autoImplicit false

/-!
Shallow embedding of the billing check-in core of the
openmrs-esm-billing-app repository: the visit-history evaluator, the
non-paying category classifier, the service catalog filter, the price
resolver, the bill payload builder and the draft lifecycle of the
check-in form component. The repository holds two revisions of the
component: the waiver revision (billing-checkin-form.component.tsx,
with `isWaived`) and the current revision (with `lastVisitInfo`,
`isNonPaying` and the reset effect); both are embedded where claims
reach them.
-/

namespace BillingCheckin

/-- Milliseconds per day, the divisor 1000 * 60 * 60 * 24 used in the
day-count computation of both component revisions. -/
def msPerDay : Nat := 1000 * 60 * 60 * 24

/-- Ceiling division on naturals: JavaScript Math.ceil(a / b) for a
nonnegative integer a and positive integer b. -/
def ceilDiv (a b : Nat) : Nat := (a + b - 1) / b

/-- Outcome of JavaScript date parsing (new Date(s)): a millisecond epoch
timestamp, or an invalid date (NaN) when the input string is malformed
or the start field is missing. -/
inductive DateVal where
  | valid (ms : Int)
  | invalid
deriving DecidableEq

/-- The visit entry shape the component reads from the FHIR bundle:
resource.period.start (as parsed by new Date), the optional type
display and text, and the optional location display. -/
structure VisitEntry where
  periodStart : DateVal
  typeDisplay : Option String
  typeText : Option String
  locationDisplay : Option String
deriving DecidableEq

/-- Math.ceil(Math.abs(now - visitStart) / msPerDay), propagating NaN:
none when the parsed start date is invalid. -/
def diffDaysOf (now : Int) (start : DateVal) : Option Nat :=
  match start with
  | .invalid => none
  | .valid ms => some (ceilDiv (now - ms).natAbs msPerDay)

/-- isWaived from the waiver revision: false when the bundle has no
entry; otherwise diffDays <= 7, where the JavaScript comparison
NaN <= 7 for an invalid start date evaluates to false. -/
def isWaived (visitEntries : List VisitEntry) (now : Int) : Bool :=
  match visitEntries with
  | [] => false
  | e :: _ =>
    match diffDaysOf now e.periodStart with
    | none => false
    | some d => decide (d ≤ 7)

/-- JavaScript a || b on optional strings: the empty string is falsy. -/
def jsOr (a b : Option String) : Option String :=
  match a with
  | some s => if s = "" then b else some s
  | none => b

/-- JavaScript a || '' on an optional string. -/
def jsOrEmpty (a : Option String) : String :=
  match a with
  | some s => s
  | none => ""

/-- The visit facts derived by lastVisitInfo. diffDays is none when the
start date was invalid (NaN in the source). The dateFormatted field is
produced by the external dayjs collaborator from the same date value and
carries no billing information, so it is not modelled. -/
structure VisitInfo where
  diffDays : Option Nat
  type : String
  location : String
deriving DecidableEq

/-- lastVisitInfo from the current revision: null when the bundle has no
entry; otherwise the day count together with type and location, each
defaulted to the empty string. -/
def lastVisitInfo (visitEntries : List VisitEntry) (now : Int) : Option VisitInfo :=
  match visitEntries with
  | [] => none
  | e :: _ =>
    some { diffDays := diffDaysOf now e.periodStart,
           type := jsOrEmpty (jsOr e.typeDisplay e.typeText),
           location := jsOrEmpty e.locationDisplay }

theorem ceilDiv_msPerDay_le_seven (a : Nat) :
    ceilDiv a msPerDay ≤ 7 ↔ a ≤ 7 * msPerDay := by
  unfold ceilDiv msPerDay
  omega

/-- C1: for a visit whose start lies within 7*24h of now the waiver flag
is true; at exactly 7 days plus 1 second before now it is false; in
general the flag holds exactly when the absolute distance is at most
7 days, i.e. ceil(|now - visitStart| in whole days) <= 7 with no
flooring at zero. -/
theorem isWaived_seven_day_boundary (e : VisitEntry) (rest : List VisitEntry)
    (now start : Int) (hstart : e.periodStart = .valid start) :
    (isWaived (e :: rest) now = true ↔ (now - start).natAbs ≤ 7 * msPerDay) ∧
    ((now - start).natAbs ≤ 7 * msPerDay → isWaived (e :: rest) now = true) ∧
    ((now - start).natAbs = 7 * msPerDay + 1000 → isWaived (e :: rest) now = false) := by
  have hmain : isWaived (e :: rest) now = true ↔ (now - start).natAbs ≤ 7 * msPerDay := by
    simp only [isWaived, diffDaysOf, hstart, decide_eq_true_eq]
    exact ceilDiv_msPerDay_le_seven _
  refine ⟨hmain, fun h => hmain.mpr h, fun h => ?_⟩
  cases hw : isWaived (e :: rest) now with
  | false => rfl
  | true => exact absurd (hmain.mp hw) (by omega)

/-- Witness for C1: with the visit start at epoch 0, the flag is true at
now = 3 days and false at now = 7 days + 1 second. -/
theorem isWaived_seven_day_boundary_witness :
    isWaived [{ periodStart := .valid 0, typeDisplay := none, typeText := none,
                locationDisplay := none }] ((3 * msPerDay : Nat) : Int) = true ∧
    isWaived [{ periodStart := .valid 0, typeDisplay := none, typeText := none,
                locationDisplay := none }] ((7 * msPerDay + 1000 : Nat) : Int) = false :=
  ⟨(isWaived_seven_day_boundary _ [] _ 0 rfl).2.1 (by simp [msPerDay]),
   (isWaived_seven_day_boundary _ [] _ 0 rfl).2.2 (by simp [msPerDay])⟩

/-- C8 counterexample: for an entry whose period.start is malformed
(new Date yields an invalid date), lastVisitInfo does not return the
null result; it returns a populated record whose day count is the
ill-defined NaN (modelled none). -/
theorem lastVisitInfo_malformed_counterexample :
    lastVisitInfo [{ periodStart := .invalid, typeDisplay := none, typeText := none,
                     locationDisplay := none }] 0 =
      some { diffDays := none, type := "", location := "" } ∧
    lastVisitInfo [{ periodStart := .invalid, typeDisplay := none, typeText := none,
                     locationDisplay := none }] 0 ≠ none := by
  constructor
  · rfl
  · intro h
    simp [lastVisitInfo] at h

/-- C8 amended: a missing visit (no bundle entry) yields the null
result and nothing throws; but a malformed start timestamp yields a
non-null result whose day count is ill-defined (NaN, modelled none),
with the waiver flag of the waiver revision evaluating to false. -/
theorem lastVisitInfo_degrades (now : Int) (e : VisitEntry) (rest : List VisitEntry)
    (hbad : e.periodStart = .invalid) :
    lastVisitInfo [] now = none ∧
    (lastVisitInfo (e :: rest) now).map VisitInfo.diffDays = some none ∧
    isWaived (e :: rest) now = false := by
  refine ⟨rfl, ?_, ?_⟩
  · simp [lastVisitInfo, diffDaysOf, hbad]
  · simp [isWaived, diffDaysOf, hbad]

/-- Witness for C8 amended: a concrete malformed entry. -/
theorem lastVisitInfo_degrades_witness :
    (lastVisitInfo [{ periodStart := .invalid, typeDisplay := some "OPD", typeText := none,
                      locationDisplay := some "Clinic" }] 42).map VisitInfo.diffDays =
      some none ∧
    isWaived [{ periodStart := .invalid, typeDisplay := some "OPD", typeText := none,
                locationDisplay := some "Clinic" }] 42 = false :=
  ⟨(lastVisitInfo_degrades 42 _ [] rfl).2.1, (lastVisitInfo_degrades 42 _ [] rfl).2.2⟩

/-! ## Catalog, payment attributes and classifier -/

/-- A payment mode reference nested in a service price. -/
structure PaymentModeRef where
  uuid : String
deriving DecidableEq

/-- A price tier of a billable service. -/
structure ServicePrice where
  uuid : String
  name : String
  price : String
  paymentMode : Option PaymentModeRef
deriving DecidableEq

/-- A billable service with its ordered price tiers. -/
structure BillableService where
  uuid : String
  name : String
  servicePrices : List ServicePrice
deriving DecidableEq

/-- A visit attribute collected by the attributes sub-form. -/
structure Attribute where
  attributeType : String
  value : String
deriving DecidableEq

/-- A cash point; the component uses the first one as default. -/
structure CashPoint where
  uuid : String
deriving DecidableEq

/-- p.paymentMode?.uuid === paymentMethod: optional chaining yields
undefined for a price without a payment mode, and undefined equals
neither null nor any string, so only a present mode with equal uuid
matches a selected (string) payment method. -/
def priceMatches (p : ServicePrice) (paymentMethod : Option String) : Bool :=
  match p.paymentMode, paymentMethod with
  | some m, some pm => m.uuid == pm
  | _, _ => false

/-- isNonPaying from the current revision: false when the non-paying
concept is unconfigured (absent or the falsy empty string) or the
attribute list is empty; otherwise true iff some attribute value equals
the configured concept. -/
def isNonPaying (nonPayingDetails : Option String) (attributes : List Attribute) : Bool :=
  match nonPayingDetails with
  | none => false
  | some c => if c = "" then false else attributes.any (fun a => a.value == c)

/-- lineList from the current revision: empty when non-paying, when no
payment method is selected, or when the catalog is empty; otherwise the
services having at least one price for the selected payment method, in
catalog order. -/
def lineList (lineItems : List BillableService) (paymentMethod : Option String)
    (isNP : Bool) : List BillableService :=
  if isNP then []
  else if paymentMethod.isNone || lineItems.isEmpty then []
  else lineItems.filter (fun e => e.servicePrices.any (fun p => priceMatches p paymentMethod))

/-- The price resolver of handleBillingService:
servicePrices.find(p => p.paymentMode?.uuid === paymentMethod) ||
servicePrices[0]. -/
def priceForPaymentMode (servicePrices : List ServicePrice)
    (paymentMethod : Option String) : Option ServicePrice :=
  match servicePrices.find? (fun p => priceMatches p paymentMethod) with
  | some p => some p
  | none => servicePrices.head?

/-! ## Bill payload builder -/

/-- The constant PENDING_PAYMENT_STATUS. -/
def PENDING_PAYMENT_STATUS : String := "PENDING"

/-- One line item of the bill payload. -/
structure BillLineItem where
  billableService : String
  quantity : Nat
  price : String
  priceName : String
  priceUuid : String
  lineItemOrder : Nat
  paymentStatus : String
deriving DecidableEq

/-- The draft bill payload handed to setExtraVisitInfo. The payments
array is built empty; its element type never matters. -/
structure BillPayload where
  lineItems : List BillLineItem
  cashPoint : String
  patient : String
  status : String
  payments : List String
deriving DecidableEq

/-- createBillPayload as assembled by handleBillingService in the
current revision: no waiver override; when the service has no prices
the sentinel price is the string 0.000 with an empty priceUuid. -/
def createBillPayload (selectedItem : BillableService) (paymentMethod : Option String)
    (cashPoints : List CashPoint) (patientUuid : String) : BillPayload :=
  let cashPointUuid := match cashPoints.head? with
    | some c => c.uuid
    | none => ""
  let pfm := priceForPaymentMode selectedItem.servicePrices paymentMethod
  { lineItems := [{
      billableService := selectedItem.uuid,
      quantity := 1,
      price := match pfm with
        | some p => p.price
        | none => "0.000",
      priceName := "Default",
      priceUuid := match pfm with
        | some p => p.uuid
        | none => "",
      lineItemOrder := 0,
      paymentStatus := PENDING_PAYMENT_STATUS }],
    cashPoint := cashPointUuid,
    patient := patientUuid,
    status := PENDING_PAYMENT_STATUS,
    payments := [] }

/-- createBillPayload as assembled by handleBillingService in the
waiver revision: price forced to the string 0.000 when the encounter is
fee-waived, else the resolved price, else the string 0.00. -/
def createBillPayloadWaiver (selectedItem : BillableService) (paymentMethod : Option String)
    (cashPoints : List CashPoint) (patientUuid : String) (waived : Bool) : BillPayload :=
  let cashPointUuid := match cashPoints.head? with
    | some c => c.uuid
    | none => ""
  let pfm := priceForPaymentMode selectedItem.servicePrices paymentMethod
  { lineItems := [{
      billableService := selectedItem.uuid,
      quantity := 1,
      price := if waived then "0.000" else match pfm with
        | some p => p.price
        | none => "0.00",
      priceName := "Default",
      priceUuid := match pfm with
        | some p => p.uuid
        | none => "",
      lineItemOrder := 0,
      paymentStatus := PENDING_PAYMENT_STATUS }],
    cashPoint := cashPointUuid,
    patient := patientUuid,
    status := PENDING_PAYMENT_STATUS,
    payments := [] }

/-- The prices of a payload's line items, for stating price rules. -/
def linePrices (b : BillPayload) : List String :=
  b.lineItems.map (fun li => li.price)

/-! ## Concrete fixtures used by witnesses -/

/-- A cash price tier fixture. -/
def priceCash : ServicePrice :=
  { uuid := "p-cash", name := "Cash tier", price := "10.00",
    paymentMode := some { uuid := "cash" } }

/-- An insurance price tier fixture. -/
def priceIns : ServicePrice :=
  { uuid := "p-ins", name := "Insurance tier", price := "20.00",
    paymentMode := some { uuid := "insurance" } }

/-- A consultation service fixture with two price tiers. -/
def svcConsult : BillableService :=
  { uuid := "svc-1", name := "Consultation", servicePrices := [priceCash, priceIns] }

/-- A lab service fixture with one price tier. -/
def svcLab : BillableService :=
  { uuid := "svc-2", name := "Lab",
    servicePrices := [{ uuid := "p-lab", name := "Lab cash", price := "15.00",
                        paymentMode := some { uuid := "cash" } }] }

/-- A malformed catalog entry fixture: a service with zero prices. -/
def svcNoPrices : BillableService :=
  { uuid := "svc-3", name := "No prices", servicePrices := [] }

/-- A cash point fixture. -/
def cashPoint1 : CashPoint := { uuid := "cp-1" }

/-- C2: the service catalog filter yields the empty sequence when the
encounter is non-paying or no payment mode is selected; otherwise it
yields exactly the services having at least one price for the selected
mode, as an order-preserving sublist of the catalog, and a service with
zero prices is never in the result. -/
theorem lineList_filter_spec (C : List BillableService) (P : Option String) (b : Bool) :
    (b = true → lineList C P b = []) ∧
    (P = none → lineList C P b = []) ∧
    (∀ pm, P = some pm → b = false →
      (lineList C P b).Sublist C ∧
      (∀ s, s ∈ lineList C P b ↔
        s ∈ C ∧ ∃ p ∈ s.servicePrices, priceMatches p (some pm) = true) ∧
      (∀ s, s ∈ lineList C P b → s.servicePrices ≠ [])) := by
  refine ⟨fun hb => by simp [lineList, hb], fun hP => ?_, fun pm hP hb => ?_⟩
  · subst hP
    cases b <;> simp [lineList]
  · subst hP
    subst hb
    by_cases hC : C = []
    · subst hC
      simp [lineList]
    · have hform : lineList C (some pm) false =
          C.filter (fun e => e.servicePrices.any (fun p => priceMatches p (some pm))) := by
        simp [lineList, List.isEmpty_iff, hC]
      refine ⟨?_, fun s => ?_, fun s hs => ?_⟩
      · rw [hform]
        exact List.filter_sublist C
      · rw [hform, List.mem_filter, List.any_eq_true]
      · rw [hform] at hs
        rcases List.any_eq_true.mp (List.mem_filter.mp hs).2 with ⟨p, hp, _⟩
        intro hnil
        rw [hnil] at hp
        exact absurd hp (List.not_mem_nil p)

/-- Witness for C2: the non-paying and unset-mode branches, and the
filter at a concrete catalog: the cash mode keeps both priced services
and drops the priceless one. -/
theorem lineList_filter_spec_witness :
    lineList [svcConsult, svcNoPrices, svcLab] (some "cash") true = [] ∧
    lineList [svcConsult, svcNoPrices, svcLab] none false = [] ∧
    (svcLab ∈ lineList [svcConsult, svcNoPrices, svcLab] (some "cash") false ↔
      svcLab ∈ [svcConsult, svcNoPrices, svcLab] ∧
      ∃ p ∈ svcLab.servicePrices, priceMatches p (some "cash") = true) :=
  ⟨(lineList_filter_spec [svcConsult, svcNoPrices, svcLab] (some "cash") true).1 rfl,
   (lineList_filter_spec [svcConsult, svcNoPrices, svcLab] none false).2.1 rfl,
   ((lineList_filter_spec [svcConsult, svcNoPrices, svcLab] (some "cash") false).2.2
      "cash" rfl rfl).2.1 svcLab⟩

/-- C3: the price resolver is total; with at least one price it returns
a price of the service (a matching one when any price matches the
selected mode, else the first price); only for a service with zero
prices does the built payload carry the sentinel price 0.000 with an
empty priceUuid. -/
theorem priceResolver_spec (svc : BillableService) (pm : Option String)
    (cps : List CashPoint) (pat : String) :
    (svc.servicePrices ≠ [] →
      ∃ p, priceForPaymentMode svc.servicePrices pm = some p ∧ p ∈ svc.servicePrices) ∧
    ((∃ p ∈ svc.servicePrices, priceMatches p pm = true) →
      ∃ p, priceForPaymentMode svc.servicePrices pm = some p ∧
        p ∈ svc.servicePrices ∧ priceMatches p pm = true) ∧
    ((∀ p ∈ svc.servicePrices, priceMatches p pm = false) →
      priceForPaymentMode svc.servicePrices pm = svc.servicePrices.head?) ∧
    (svc.servicePrices = [] →
      (createBillPayload svc pm cps pat).lineItems.map
        (fun li => (li.price, li.priceUuid)) = [("0.000", "")]) := by
  refine ⟨fun hne => ?_, fun hex => ?_, fun hnone => ?_, fun hnil => ?_⟩
  · unfold priceForPaymentMode
    cases hf : svc.servicePrices.find? (fun p => priceMatches p pm) with
    | some p => exact ⟨p, rfl, List.mem_of_find?_eq_some hf⟩
    | none =>
      rcases hsp : svc.servicePrices with _ | ⟨a, as⟩
      · exact absurd hsp hne
      · exact ⟨a, rfl, List.mem_cons_self a as⟩
  · rcases hex with ⟨q, hq, hqm⟩
    unfold priceForPaymentMode
    cases hf : svc.servicePrices.find? (fun p => priceMatches p pm) with
    | some p =>
      refine ⟨p, rfl, List.mem_of_find?_eq_some hf, ?_⟩
      have hp := List.find?_some hf
      simpa using hp
    | none =>
      have hq2 := List.find?_eq_none.mp hf q hq
      simp [hqm] at hq2
  · unfold priceForPaymentMode
    cases hf : svc.servicePrices.find? (fun p => priceMatches p pm) with
    | some p =>
      have hp := List.find?_some hf
      have hp2 := hnone p (List.mem_of_find?_eq_some hf)
      simp [hp2] at hp
    | none => rfl
  · simp [createBillPayload, priceForPaymentMode, hnil]

/-- Witness for C3: at the consultation fixture the insurance mode
resolves to the insurance tier, an unknown mode falls back to the first
price, and the priceless fixture yields the sentinel. -/
theorem priceResolver_spec_witness :
    (∃ p, priceForPaymentMode svcConsult.servicePrices (some "insurance") = some p ∧
      p ∈ svcConsult.servicePrices ∧ priceMatches p (some "insurance") = true) ∧
    priceForPaymentMode svcConsult.servicePrices (some "mpesa") =
      svcConsult.servicePrices.head? ∧
    (createBillPayload svcNoPrices (some "cash") [cashPoint1] "patient-1").lineItems.map
      (fun li => (li.price, li.priceUuid)) = [("0.000", "")] :=
  ⟨(priceResolver_spec svcConsult (some "insurance") [cashPoint1] "patient-1").2.1
      ⟨priceIns, by decide, by decide⟩,
   (priceResolver_spec svcConsult (some "mpesa") [cashPoint1] "patient-1").2.2.1
      (by decide),
   (priceResolver_spec svcNoPrices (some "cash") [cashPoint1] "patient-1").2.2.2 rfl⟩

/-- C4: in the waiver revision's payload, the line price is 0.000 when
the encounter is fee-waived by recency; otherwise it is the resolved
price's amount; and a service with no price at all (not waived)
defaults to 0.00. -/
theorem billPayload_waiver_price (svc : BillableService) (pm : Option String)
    (cps : List CashPoint) (pat : String) :
    linePrices (createBillPayloadWaiver svc pm cps pat true) = ["0.000"] ∧
    (∀ p, priceForPaymentMode svc.servicePrices pm = some p →
      linePrices (createBillPayloadWaiver svc pm cps pat false) = [p.price]) ∧
    (svc.servicePrices = [] →
      linePrices (createBillPayloadWaiver svc pm cps pat false) = ["0.00"]) := by
  refine ⟨rfl, fun p hp => ?_, fun hnil => ?_⟩
  · simp [linePrices, createBillPayloadWaiver, hp]
  · simp [linePrices, createBillPayloadWaiver, priceForPaymentMode, hnil]

/-- Witness for C4: waived consultation is 0.000, unwaived resolves the
cash tier 10.00, and the priceless fixture defaults to 0.00. -/
theorem billPayload_waiver_price_witness :
    linePrices (createBillPayloadWaiver svcConsult (some "cash") [cashPoint1]
      "patient-1" true) = ["0.000"] ∧
    linePrices (createBillPayloadWaiver svcConsult (some "cash") [cashPoint1]
      "patient-1" false) = [priceCash.price] ∧
    linePrices (createBillPayloadWaiver svcNoPrices (some "cash") [cashPoint1]
      "patient-1" false) = ["0.00"] :=
  ⟨(billPayload_waiver_price svcConsult (some "cash") [cashPoint1] "patient-1").1,
   (billPayload_waiver_price svcConsult (some "cash") [cashPoint1] "patient-1").2.1
      priceCash rfl,
   (billPayload_waiver_price svcNoPrices (some "cash") [cashPoint1] "patient-1").2.2
      rfl⟩

/-- C7: every payload built by either revision has exactly one line
item, with quantity 1, lineItemOrder 0 and paymentStatus PENDING, the
payload status is PENDING and the payments sequence is empty. -/
theorem billPayload_creation_invariants (svc : BillableService) (pm : Option String)
    (cps : List CashPoint) (pat : String) (w : Bool) :
    ((createBillPayload svc pm cps pat).lineItems.map
        (fun li => (li.quantity, li.lineItemOrder, li.paymentStatus)) =
      [(1, 0, "PENDING")] ∧
     (createBillPayload svc pm cps pat).status = "PENDING" ∧
     (createBillPayload svc pm cps pat).payments = []) ∧
    ((createBillPayloadWaiver svc pm cps pat w).lineItems.map
        (fun li => (li.quantity, li.lineItemOrder, li.paymentStatus)) =
      [(1, 0, "PENDING")] ∧
     (createBillPayloadWaiver svc pm cps pat w).status = "PENDING" ∧
     (createBillPayloadWaiver svc pm cps pat w).payments = []) :=
  ⟨⟨rfl, rfl, rfl⟩, ⟨rfl, rfl, rfl⟩⟩

/-- C10: in both revisions the line item's priceName is the constant
Default, whatever price tier was resolved; the resolved price's own
name is never copied into the line item. -/
theorem billPayload_priceName_constant (svc : BillableService) (pm : Option String)
    (cps : List CashPoint) (pat : String) (w : Bool) :
    (createBillPayload svc pm cps pat).lineItems.map (fun li => li.priceName) =
      ["Default"] ∧
    (createBillPayloadWaiver svc pm cps pat w).lineItems.map (fun li => li.priceName) =
      ["Default"] :=
  ⟨rfl, rfl⟩

/-! ## Draft lifecycle of the check-in form (current revision)

The component state is paymentMethod, attributes, the staged
extraVisitInfo handed to the host, and the selected billable item.
The reset effect runs whenever paymentMethod or the derived isNonPaying
value changes, nulling the staged payload and clearing the selection;
handleBillingService stages a payload built from the then-current
paymentMethod. The builtPaymentMethod and builtNonPaying fields are
ghost annotations recording the values in effect at build time, used
only to state the freshness invariant. -/

/-- A staged draft: the payload published through setExtraVisitInfo,
annotated with the payment method and non-paying classification under
which handleBillingService built it. -/
structure StagedDraft where
  payload : BillPayload
  builtPaymentMethod : Option String
  builtNonPaying : Bool
deriving DecidableEq

/-- The check-in form's state. -/
structure FormState where
  paymentMethod : Option String
  attributes : List Attribute
  extraVisitInfo : Option StagedDraft
  selectedBillableItem : Option BillableService
deriving DecidableEq

/-- The discrete events driving recomputation. -/
inductive Event where
  | setPaymentMethod (pm : Option String)
  | setAttributes (attrs : List Attribute)
  | selectService (item : BillableService)
deriving DecidableEq

/-- The fixed collaborator inputs of one form session: the configured
non-paying concept, the cash point list and the patient identifier. -/
structure Env where
  nonPayingDetails : Option String
  cashPoints : List CashPoint
  patientUuid : String
deriving DecidableEq

/-- The state after mount: the reset effect has run once, so the staged
payload is null. -/
def initialState : FormState :=
  { paymentMethod := none, attributes := [], extraVisitInfo := none,
    selectedBillableItem := none }

/-- One event of the form. A payment-method update to a different
value, or an attribute update that flips isNonPaying, re-runs the reset
effect (null payload and callback, cleared selection); an update that
leaves the effect dependencies unchanged does not. A service selection
stages a fresh payload built from the current payment method. -/
def step (env : Env) (s : FormState) : Event → FormState
  | .setPaymentMethod pm =>
    if pm = s.paymentMethod then s
    else { s with paymentMethod := pm, extraVisitInfo := none,
                  selectedBillableItem := none }
  | .setAttributes attrs =>
    if isNonPaying env.nonPayingDetails attrs =
        isNonPaying env.nonPayingDetails s.attributes then
      { s with attributes := attrs }
    else { s with attributes := attrs, extraVisitInfo := none,
                  selectedBillableItem := none }
  | .selectService item =>
    { s with
      selectedBillableItem := some item,
      extraVisitInfo := some
        { payload := createBillPayload item s.paymentMethod env.cashPoints
            env.patientUuid,
          builtPaymentMethod := s.paymentMethod,
          builtNonPaying := isNonPaying env.nonPayingDetails s.attributes } }

/-- The state reached by a trace of events from the mounted form. -/
def run (env : Env) (events : List Event) : FormState :=
  events.foldl (step env) initialState

/-- The two states of the draft lifecycle controller. -/
inductive Phase where
  | Empty
  | Drafted
deriving DecidableEq

/-- The lifecycle phase of a form state. -/
def phase (s : FormState) : Phase :=
  match s.extraVisitInfo with
  | none => .Empty
  | some _ => .Drafted

/-- The observed lifecycle phases along a trace, initial state first. -/
def phaseTrace (env : Env) (events : List Event) : List Phase :=
  (events.scanl (step env) initialState).map phase

/-- A staged draft is consistent with the state that holds it when it
was built under the state's current payment method and non-paying
classification. -/
def draftConsistent (env : Env) (s : FormState) : Prop :=
  ∀ d, s.extraVisitInfo = some d →
    d.builtPaymentMethod = s.paymentMethod ∧
    d.builtNonPaying = isNonPaying env.nonPayingDetails s.attributes

theorem step_preserves_draftConsistent (env : Env) (s : FormState) (e : Event)
    (hs : draftConsistent env s) : draftConsistent env (step env s e) := by
  cases e with
  | setPaymentMethod pm =>
    by_cases hpm : pm = s.paymentMethod
    · simpa [step, hpm] using hs
    · intro d hd
      simp [step, hpm] at hd
  | setAttributes attrs =>
    by_cases hnp : isNonPaying env.nonPayingDetails attrs =
        isNonPaying env.nonPayingDetails s.attributes
    · intro d hd
      simp [step, hnp] at hd ⊢
      rcases hs d hd with ⟨h1, h2⟩
      exact ⟨h1, h2⟩
    · intro d hd
      simp [step, hnp] at hd
  | selectService item =>
    intro d hd
    simp [step] at hd
    subst hd
    exact ⟨rfl, rfl⟩

theorem foldl_preserves_draftConsistent (env : Env) (events : List Event) :
    ∀ s, draftConsistent env s → draftConsistent env (events.foldl (step env) s) := by
  induction events with
  | nil => exact fun s hs => hs
  | cons e es ih =>
    intro s hs
    exact ih (step env s e) (step_preserves_draftConsistent env s e hs)

/-- C5: a payment-method change or a non-paying flip nulls the staged
payload even when a service was selected; and along every event trace,
a non-null staged draft was built under the current payment method and
the current non-paying classification — no superseded draft survives. -/
theorem draft_invalidation (env : Env) :
    (∀ s pm, pm ≠ s.paymentMethod →
      (step env s (.setPaymentMethod pm)).extraVisitInfo = none ∧
      (step env s (.setPaymentMethod pm)).selectedBillableItem = none) ∧
    (∀ s attrs,
      isNonPaying env.nonPayingDetails attrs ≠
        isNonPaying env.nonPayingDetails s.attributes →
      (step env s (.setAttributes attrs)).extraVisitInfo = none ∧
      (step env s (.setAttributes attrs)).selectedBillableItem = none) ∧
    (∀ events, draftConsistent env (run env events)) := by
  refine ⟨fun s pm hpm => ?_, fun s attrs hnp => ?_, fun events => ?_⟩
  · constructor <;> simp [step, hpm]
  · constructor <;> simp [step, hnp]
  · exact foldl_preserves_draftConsistent env events initialState (by intro d hd; cases hd)

/-- The session environment fixture. -/
def env1 : Env :=
  { nonPayingDetails := some "np-concept", cashPoints := [cashPoint1],
    patientUuid := "patient-1" }

/-- A drafted form state fixture: cash selected, consultation staged. -/
def draftedState : FormState :=
  { paymentMethod := some "cash",
    attributes := [],
    extraVisitInfo := some
      { payload := createBillPayload svcConsult (some "cash") [cashPoint1] "patient-1",
        builtPaymentMethod := some "cash",
        builtNonPaying := false },
    selectedBillableItem := some svcConsult }

/-- Witness for C5: switching the drafted fixture to insurance nulls
the staged payload; adding the configured non-paying attribute nulls
it; and on a concrete trace the staged draft carries the current
payment method and classification. -/
theorem draft_invalidation_witness :
    (step env1 draftedState (.setPaymentMethod (some "insurance"))).extraVisitInfo =
      none ∧
    (step env1 draftedState
      (.setAttributes [{ attributeType := "category", value := "np-concept" }])).extraVisitInfo =
      none ∧
    ({ payload := createBillPayload svcConsult (some "cash") [cashPoint1] "patient-1",
       builtPaymentMethod := some "cash", builtNonPaying := false : StagedDraft}.builtPaymentMethod =
      (run env1 [.setPaymentMethod (some "cash"), .selectService svcConsult]).paymentMethod ∧
     { payload := createBillPayload svcConsult (some "cash") [cashPoint1] "patient-1",
       builtPaymentMethod := some "cash", builtNonPaying := false : StagedDraft}.builtNonPaying =
      isNonPaying env1.nonPayingDetails
        (run env1 [.setPaymentMethod (some "cash"), .selectService svcConsult]).attributes) :=
  ⟨((draft_invalidation env1).1 draftedState (some "insurance") (by decide)).1,
   ((draft_invalidation env1).2.1 draftedState
      [{ attributeType := "category", value := "np-concept" }] (by decide)).1,
   (draft_invalidation env1).2.2 [.setPaymentMethod (some "cash"), .selectService svcConsult]
      _ rfl⟩

/-- C6 counterexample: on the trace that selects the cash mode, then
the consultation service, then the lab service, the observed phases are
Empty, Empty, Drafted, Drafted: two consecutive Drafted states with no
intervening Empty, via a direct Drafted to Drafted re-selection. -/
theorem drafted_to_drafted_counterexample :
    phaseTrace env1 [.setPaymentMethod (some "cash"), .selectService svcConsult,
      .selectService svcLab] = [.Empty, .Empty, .Drafted, .Drafted] := by
  decide

/-- C6 amended: from any state, a payment-method change (to a different
value) or a non-paying flip transitions to Empty, so no new Drafted is
reached from Drafted through those events without an intervening Empty;
a service-selection event, however, moves directly to Drafted with a
freshly re-derived payload — it is the one direct Drafted to Drafted
transition, and it never mutates the prior draft in place. -/
theorem drafted_transitions (env : Env) :
    (∀ s pm, pm ≠ s.paymentMethod →
      phase (step env s (.setPaymentMethod pm)) = .Empty) ∧
    (∀ s attrs,
      isNonPaying env.nonPayingDetails attrs ≠
        isNonPaying env.nonPayingDetails s.attributes →
      phase (step env s (.setAttributes attrs)) = .Empty) ∧
    (∀ s item, (step env s (.selectService item)).extraVisitInfo = some
      { payload := createBillPayload item s.paymentMethod env.cashPoints env.patientUuid,
        builtPaymentMethod := s.paymentMethod,
        builtNonPaying := isNonPaying env.nonPayingDetails s.attributes }) := by
  refine ⟨fun s pm hpm => ?_, fun s attrs hnp => ?_, fun s item => rfl⟩
  · simp [phase, step, hpm]
  · simp [phase, step, hnp]

/-- Witness for C6 amended: the drafted fixture goes to Empty on a
payment-method change and on a non-paying flip. -/
theorem drafted_transitions_witness :
    phase (step env1 draftedState (.setPaymentMethod none)) = .Empty ∧
    phase (step env1 draftedState
      (.setAttributes [{ attributeType := "category", value := "np-concept" }])) = .Empty :=
  ⟨(drafted_transitions env1).1 draftedState none (by decide),
   (drafted_transitions env1).2.1 draftedState
      [{ attributeType := "category", value := "np-concept" }] (by decide)⟩

/-! ## Commit operation -/

/-- The snackbar kinds the commit handler can emit. -/
inductive SnackbarKind where
  | success
  | failure
deriving DecidableEq

/-- handleCreateExtraVisitInfo: awaits the external createPatientBill
call inside try/catch. A resolved call shows the success snackbar; a
rejected call is caught and shows the error snackbar. The handler
touches no form state, so the staged draft survives either way. The
external call's outcome is the Except argument. -/
def handleCreateExtraVisitInfo (callResult : Except String Unit) (s : FormState) :
    SnackbarKind × FormState :=
  match callResult with
  | .ok _ => (.success, s)
  | .error _ => (.failure, s)

/-- C9: committing a draft emits the success notification when the
external call succeeds and the failure notification when it fails; the
error never propagates (the handler is total and returns a
notification), and the form state — including the staged draft — is
unchanged, so a retry reuses the same payload. -/
theorem commit_notification_spec (s : FormState) (r : Except String Unit) :
    (handleCreateExtraVisitInfo r s).2 = s ∧
    (∀ u, r = .ok u → (handleCreateExtraVisitInfo r s).1 = .success) ∧
    (∀ msg, r = .error msg → (handleCreateExtraVisitInfo r s).1 = .failure) := by
  refine ⟨?_, fun u hu => ?_, fun msg hm => ?_⟩
  · cases r <;> rfl
  · subst hu
    rfl
  · subst hm
    rfl

/-- Witness for C9: on the drafted fixture, a failing call emits the
failure notification and keeps the staged draft; a succeeding call
emits the success notification. -/
theorem commit_notification_spec_witness :
    (handleCreateExtraVisitInfo (.error "network") draftedState).2 = draftedState ∧
    (handleCreateExtraVisitInfo (.error "network") draftedState).1 = .failure ∧
    (handleCreateExtraVisitInfo (.ok ()) draftedState).1 = .success :=
  ⟨(commit_notification_spec draftedState (.error "network")).1,
   (commit_notification_spec draftedState (.error "network")).2.2 "network" rfl,
   (commit_notification_spec draftedState (.ok ())).2.1 () rfl⟩

end BillingCheckin
